import Mathlib

/-
Shallow embedding of the Team 11 language-proficiency exam microservice
(`src/team11/views.py`, `src/core/web_views.py`).

The Django request handlers `submit_writing`, `submit_listening` and
`submission_detail` are modelled as pure functions from the request data,
the external assessment collaborator (passed as a function, since
`assess_writing` / `assess_speaking` live in an external service module)
and the database state to an HTTP response paired with the new database
state.  The ORM tables are lists of records; `objects.create` appends a
fresh record, `save()` replaces the record with the same primary key.
Python exceptions (from `json.loads` or from the assessment call inside
the `try` block) are modelled with `Except String`, matching the single
`try/except` wrapper of each handler.  Numeric scores are modelled as
`Int`: the handlers only copy them between records, never compute with
them.
-/

namespace Team11

/-- ASCII whitespace recognised by Python `str.split()` with no argument. -/
def isPyWs (c : Char) : Bool :=
  c = ' ' || c = '\t' || c = '\n' || c = '\x0b' || c = '\x0c' || c = '\r'

/-- Helper for `pySplit`: walks the characters, `cur` holds the current
(reversed) token. -/
def pySplitAux : List Char → List Char → List (List Char)
  | [], cur => if cur = [] then [] else [cur.reverse]
  | c :: rest, cur =>
    if isPyWs c then
      if cur = [] then pySplitAux rest []
      else cur.reverse :: pySplitAux rest []
    else pySplitAux rest (c :: cur)

/-- Python `s.split()` with no separator: splits on runs of whitespace and
never yields empty tokens. -/
def pySplit (s : String) : List String :=
  (pySplitAux s.data []).map List.asString

/-- Python `s.startswith(p)`. -/
def charsStartWith : List Char → List Char → Bool
  | _, [] => true
  | [], _ :: _ => false
  | c :: cs, p :: ps => c = p && charsStartWith cs ps

/-- Python `s.startswith(p)` on `String`. -/
def pyStartswith (s p : String) : Bool :=
  charsStartWith s.data p.data

/-- Python slice `s[a:b]` (for `0 ≤ a ≤ b`). -/
def pySlice (s : String) (a b : Nat) : String :=
  ((s.data.drop a).take (b - a)).asString

/-- Python `s.endswith(p)`. -/
def pyEndswith (s p : String) : Bool :=
  charsStartWith s.data.reverse p.data.reverse

/-- POSIX `os.path.join(a, b)`. -/
def os_path_join (a b : String) : String :=
  if pyStartswith b "/" then b
  else if a = "" || pyEndswith a "/" then a ++ b
  else a ++ "/" ++ b

/-- JSON values appearing in the handlers' responses. -/
inductive JVal where
  | jbool : Bool → JVal
  | jstr : String → JVal
  | jint : Int → JVal
  | jnull : JVal
deriving DecidableEq, Repr

/-- An HTTP response: a `JsonResponse` with a status code and body, or a
rendered HTML template with a status code. -/
inductive HttpResponse where
  | json : Nat → List (String × JVal) → HttpResponse
  | html : Nat → String → HttpResponse
deriving DecidableEq, Repr

/-- Status code of a response (`JsonResponse` defaults to 200 in Django;
the default is always given explicitly here). -/
def HttpResponse.statusCode : HttpResponse → Nat
  | .json s _ => s
  | .html s _ => s

/-- `team11.models.SubmissionType`. -/
inductive SubmissionType where
  | WRITING
  | LISTENING
deriving DecidableEq, Repr

/-- `team11.models.AnalysisStatus`. -/
inductive AnalysisStatus where
  | PENDING
  | IN_PROGRESS
  | COMPLETED
  | FAILED
deriving DecidableEq, Repr

/-- A `Submission` row: id, owner, exam type, status, nullable overall
score. -/
structure Submission where
  submission_id : Nat
  user_id : Nat
  submission_type : SubmissionType
  status : AnalysisStatus
  overall_score : Option Int
deriving DecidableEq, Repr

/-- A `WritingSubmission` detail row (keyed by its submission). -/
structure WritingSubmission where
  submission_id : Nat
  topic : String
  text_body : String
  word_count : Nat
deriving DecidableEq, Repr

/-- A `ListeningSubmission` detail row (keyed by its submission);
transcription is nullable and filled post-assessment. -/
structure ListeningSubmission where
  submission_id : Nat
  topic : String
  audio_file_url : String
  duration_seconds : Int
  transcription : Option String
deriving DecidableEq, Repr

/-- An `AssessmentResult` row (1:1 with its submission); pronunciation is
only set for listening submissions. -/
structure AssessmentResult where
  submission_id : Nat
  grammar_score : Int
  vocabulary_score : Int
  coherence_score : Int
  fluency_score : Int
  pronunciation_score : Option Int
  feedback_summary : String
  suggestions : List String
deriving DecidableEq, Repr

/-- The persistent store: one list per table, plus the next fresh primary
key for `Submission`. -/
structure DB where
  submissions : List Submission
  writingSubmissions : List WritingSubmission
  listeningSubmissions : List ListeningSubmission
  assessmentResults : List AssessmentResult
  nextId : Nat
deriving DecidableEq, Repr

/-- The empty database. -/
def emptyDB : DB :=
  { submissions := [], writingSubmissions := [], listeningSubmissions := [],
    assessmentResults := [], nextId := 0 }

/-- `Submission.objects.create(...)`: appends a fresh row and returns it. -/
def DB.createSubmission (db : DB) (user_id : Nat) (ty : SubmissionType)
    (st : AnalysisStatus) : Submission × DB :=
  let s : Submission :=
    { submission_id := db.nextId, user_id := user_id, submission_type := ty,
      status := st, overall_score := none }
  (s, { db with submissions := db.submissions ++ [s], nextId := db.nextId + 1 })

/-- `WritingSubmission.objects.create(...)`. -/
def DB.createWritingSubmission (db : DB) (w : WritingSubmission) : DB :=
  { db with writingSubmissions := db.writingSubmissions ++ [w] }

/-- `ListeningSubmission.objects.create(...)`. -/
def DB.createListeningSubmission (db : DB) (l : ListeningSubmission) : DB :=
  { db with listeningSubmissions := db.listeningSubmissions ++ [l] }

/-- `AssessmentResult.objects.create(...)`. -/
def DB.createAssessmentResult (db : DB) (a : AssessmentResult) : DB :=
  { db with assessmentResults := db.assessmentResults ++ [a] }

/-- `submission.save()`: replaces the row with the same primary key. -/
def DB.saveSubmission (db : DB) (s : Submission) : DB :=
  { db with submissions :=
      db.submissions.map (fun t => if t.submission_id = s.submission_id then s else t) }

/-- `listening_detail.save()`: replaces the detail row with the same key. -/
def DB.saveListeningSubmission (db : DB) (l : ListeningSubmission) : DB :=
  { db with listeningSubmissions :=
      db.listeningSubmissions.map (fun t => if t.submission_id = l.submission_id then l else t) }

/-- Well-formed database: every stored row's submission key is below the
next fresh primary key. -/
def DB.Wf (db : DB) : Prop :=
  (∀ s ∈ db.submissions, s.submission_id < db.nextId) ∧
  (∀ w ∈ db.writingSubmissions, w.submission_id < db.nextId) ∧
  (∀ l ∈ db.listeningSubmissions, l.submission_id < db.nextId) ∧
  (∀ a ∈ db.assessmentResults, a.submission_id < db.nextId)

instance (db : DB) : Decidable db.Wf := by
  unfold DB.Wf; infer_instance

/-- The parsed JSON body of a writing submission request; `none` fields
model missing (or `null`) keys, read with `data.get(key, default)`. -/
structure WritingBody where
  topic : Option String
  text_body : Option String
deriving DecidableEq, Repr

/-- The parsed JSON body of a listening submission request. -/
structure ListeningBody where
  topic : Option String
  audio_url : Option String
  duration_seconds : Option Int
deriving DecidableEq, Repr

/-- The result dict of the external `assess_writing` collaborator
(contract from the service layer): success flag, per-skill scores,
feedback, suggestions, and an optional error message. -/
structure WritingAssessment where
  success : Bool
  overall_score : Int
  grammar_score : Int
  vocabulary_score : Int
  coherence_score : Int
  fluency_score : Int
  feedback_summary : String
  suggestions : List String
  error : Option String
deriving DecidableEq, Repr

/-- The result dict of the external `assess_speaking` collaborator:
like `WritingAssessment` plus pronunciation and an optional
transcription (read with `.get('transcription', '')`). -/
structure SpeakingAssessment where
  success : Bool
  overall_score : Int
  pronunciation_score : Int
  fluency_score : Int
  vocabulary_score : Int
  grammar_score : Int
  coherence_score : Int
  feedback_summary : String
  suggestions : List String
  transcription : Option String
  error : Option String
deriving DecidableEq, Repr

/-- `team11.views.submit_writing`.  `request_body` is the outcome of
`json.loads(request.body)` (`.error` models a raised exception, carrying
`str(e)`); `assess_writing` is the external collaborator, whose `.error`
outcome models an exception raised during the call — both are caught by
the handler's single `except` clause, which returns a 500 without any
further database write. -/
def submit_writing (user_id : Nat) (request_body : Except String WritingBody)
    (assess_writing : String → String → Nat → Except String WritingAssessment)
    (db : DB) : HttpResponse × DB :=
  match request_body with
  | .error e => (.json 500 [("error", .jstr e)], db)
  | .ok data =>
    let topic := data.topic.getD ""
    let text_body := data.text_body.getD ""
    if text_body = "" then
      (.json 400 [("error", .jstr "Text body is required")], db)
    else
      let word_count := (pySplit text_body).length
      let (submission, db1) := db.createSubmission user_id .WRITING .IN_PROGRESS
      let db2 := db1.createWritingSubmission
        { submission_id := submission.submission_id, topic := topic,
          text_body := text_body, word_count := word_count }
      match assess_writing topic text_body word_count with
      | .error e => (.json 500 [("error", .jstr e)], db2)
      | .ok assessment_result =>
        if assessment_result.success then
          let submission := { submission with
            overall_score := some assessment_result.overall_score,
            status := .COMPLETED }
          let db3 := db2.saveSubmission submission
          let db4 := db3.createAssessmentResult
            { submission_id := submission.submission_id,
              grammar_score := assessment_result.grammar_score,
              vocabulary_score := assessment_result.vocabulary_score,
              coherence_score := assessment_result.coherence_score,
              fluency_score := assessment_result.fluency_score,
              pronunciation_score := none,
              feedback_summary := assessment_result.feedback_summary,
              suggestions := assessment_result.suggestions }
          (.json 200 [("success", .jbool true),
                      ("submission_id", .jstr (toString submission.submission_id)),
                      ("score", .jint assessment_result.overall_score),
                      ("message", .jstr "Writing submitted and assessed successfully")], db4)
        else
          let submission := { submission with status := .FAILED }
          let db3 := db2.saveSubmission submission
          (.json 500 [("success", .jbool false),
                      ("submission_id", .jstr (toString submission.submission_id)),
                      ("error", .jstr (assessment_result.error.getD "Assessment failed")),
                      ("message", .jstr "Submission saved but assessment failed. Please try again.")], db3)

/-- The audio-path computation of `submit_listening` (views.py lines
206-220): remote URLs are passed through unchanged (download left as a
stub in the source), a relative local path is joined with `MEDIA_ROOT`,
an absolute or drive-letter path is used as-is.  The drive-letter test is
the literal `not audio_url[1:3] == ':\\'` from the source. -/
def audioFilePath (media_root audio_url : String) : String :=
  if pyStartswith audio_url "http://" || pyStartswith audio_url "https://" then
    audio_url
  else
    if (¬ pyStartswith audio_url "/") ∧ pySlice audio_url 1 3 ≠ ":\\" then
      os_path_join media_root audio_url
    else
      audio_url

/-- `team11.views.submit_listening`.  `media_root` models
`settings.MEDIA_ROOT`; the audio-path computation (remote-URL stub,
drive-letter check, `os.path.join` with `MEDIA_ROOT`) is translated
literally even though only the external collaborator consumes it. -/
def submit_listening (user_id : Nat) (media_root : String)
    (request_body : Except String ListeningBody)
    (assess_speaking : String → String → Int → Except String SpeakingAssessment)
    (db : DB) : HttpResponse × DB :=
  match request_body with
  | .error e => (.json 500 [("error", .jstr e)], db)
  | .ok data =>
    let topic := data.topic.getD ""
    let audio_url := data.audio_url.getD ""
    let duration := data.duration_seconds.getD 0
    if audio_url = "" then
      (.json 400 [("error", .jstr "Audio URL is required")], db)
    else
      let (submission, db1) := db.createSubmission user_id .LISTENING .IN_PROGRESS
      let listening_detail : ListeningSubmission :=
        { submission_id := submission.submission_id, topic := topic,
          audio_file_url := audio_url, duration_seconds := duration,
          transcription := none }
      let db2 := db1.createListeningSubmission listening_detail
      let audio_file_path := audioFilePath media_root audio_url
      match assess_speaking topic audio_file_path duration with
      | .error e => (.json 500 [("error", .jstr e)], db2)
      | .ok assessment_result =>
        if assessment_result.success then
          let listening_detail := { listening_detail with
            transcription := some (assessment_result.transcription.getD "") }
          let db3 := db2.saveListeningSubmission listening_detail
          let submission := { submission with
            overall_score := some assessment_result.overall_score,
            status := .COMPLETED }
          let db4 := db3.saveSubmission submission
          let db5 := db4.createAssessmentResult
            { submission_id := submission.submission_id,
              grammar_score := assessment_result.grammar_score,
              vocabulary_score := assessment_result.vocabulary_score,
              coherence_score := assessment_result.coherence_score,
              fluency_score := assessment_result.fluency_score,
              pronunciation_score := some assessment_result.pronunciation_score,
              feedback_summary := assessment_result.feedback_summary,
              suggestions := assessment_result.suggestions }
          (.json 200 [("success", .jbool true),
                      ("submission_id", .jstr (toString submission.submission_id)),
                      ("score", .jint assessment_result.overall_score),
                      ("transcription", .jstr (assessment_result.transcription.getD "")),
                      ("message", .jstr "Audio submitted and assessed successfully")], db5)
        else
          let submission := { submission with status := .FAILED }
          let db3 := db2.saveSubmission submission
          (.json 500 [("success", .jbool false),
                      ("submission_id", .jstr (toString submission.submission_id)),
                      ("error", .jstr (assessment_result.error.getD "Assessment failed")),
                      ("message", .jstr "Submission saved but assessment failed. Please try again.")], db3)

/-- `team11.views.submission_detail`: `get_object_or_404` filtered by the
submission id and the requesting user's id, then read-only queries for the
type-specific detail record, then a rendered template.  No write is
performed on any path. -/
def submission_detail (user_id : Nat) (submission_id : Nat) (db : DB) :
    HttpResponse × DB :=
  match db.submissions.find?
      (fun s => s.submission_id = submission_id && s.user_id = user_id) with
  | none => (.html 404 "404.html", db)
  | some _ => (.html 200 "team11/submission_detail.html", db)

/-- A writing assessor that raises an exception (network failure, etc.). -/
def raisingWritingAssessor : String → String → Nat → Except String WritingAssessment :=
  fun _ _ _ => .error "connection refused"

/-- A speaking assessor that raises an exception. -/
def raisingSpeakingAssessor : String → String → Int → Except String SpeakingAssessment :=
  fun _ _ _ => .error "connection refused"

/-- A concrete successful writing assessment result. -/
def okWritingResult : WritingAssessment :=
  { success := true, overall_score := 8, grammar_score := 7, vocabulary_score := 8,
    coherence_score := 9, fluency_score := 6, feedback_summary := "good",
    suggestions := ["expand the conclusion"], error := none }

/-- A concrete failed writing assessment result. -/
def failedWritingResult : WritingAssessment :=
  { success := false, overall_score := 0, grammar_score := 0, vocabulary_score := 0,
    coherence_score := 0, fluency_score := 0, feedback_summary := "",
    suggestions := [], error := some "model overloaded" }

/-- A concrete successful speaking assessment result. -/
def okSpeakingResult : SpeakingAssessment :=
  { success := true, overall_score := 7, pronunciation_score := 6, fluency_score := 7,
    vocabulary_score := 7, grammar_score := 7, coherence_score := 7,
    feedback_summary := "clear", suggestions := ["slow down"],
    transcription := some "hello world", error := none }

/-- A concrete failed speaking assessment result. -/
def failedSpeakingResult : SpeakingAssessment :=
  { success := false, overall_score := 0, pronunciation_score := 0, fluency_score := 0,
    vocabulary_score := 0, grammar_score := 0, coherence_score := 0,
    feedback_summary := "", suggestions := [],
    transcription := none, error := some "transcriber unavailable" }

/-- A one-row database: user 2 owns the only submission (id 0). -/
def sampleDB : DB :=
  { submissions :=
      [{ submission_id := 0, user_id := 2, submission_type := .WRITING,
         status := .COMPLETED, overall_score := some 8 }],
    writingSubmissions :=
      [{ submission_id := 0, topic := "t", text_body := "a b", word_count := 2 }],
    listeningSubmissions := [], assessmentResults := [], nextId := 1 }

/-- Replacing by a key not present in the list (because every stored key is
below the fresh key) leaves a submission table unchanged. -/
theorem saveSubmission_map_fresh (l : List Submission) (n : Nat) (s : Submission)
    (hl : ∀ t ∈ l, t.submission_id < n) :
    l.map (fun t => if t.submission_id = n then s else t) = l := by
  induction l with
  | nil => rfl
  | cons a as ih =>
    have ha : a.submission_id < n := hl a (by simp)
    have hne : ¬ a.submission_id = n := Nat.ne_of_lt ha
    simp only [List.map_cons, if_neg hne]
    rw [ih (fun t ht => hl t (by simp [ht]))]

/-- Replacing by a fresh key leaves a listening-detail table unchanged. -/
theorem saveListening_map_fresh (l : List ListeningSubmission) (n : Nat)
    (s : ListeningSubmission)
    (hl : ∀ t ∈ l, t.submission_id < n) :
    l.map (fun t => if t.submission_id = n then s else t) = l := by
  induction l with
  | nil => rfl
  | cons a as ih =>
    have ha : a.submission_id < n := hl a (by simp)
    have hne : ¬ a.submission_id = n := Nat.ne_of_lt ha
    simp only [List.map_cons, if_neg hne]
    rw [ih (fun t ht => hl t (by simp [ht]))]

/-- A fresh key occurs zero times among stored assessment results. -/
theorem countP_assessment_fresh (l : List AssessmentResult) (n : Nat)
    (h : ∀ a ∈ l, a.submission_id < n) :
    l.countP (fun a => a.submission_id = n) = 0 := by
  rw [List.countP_eq_zero]
  intro a ha
  simpa using Nat.ne_of_lt (h a ha)

/-- C4: a writing submission whose JSON body lacks the `text_body` field is
answered with HTTP 400 and the database is unchanged: no Submission and no
WritingSubmission row is created. -/
theorem C4_missing_text_body_rejected (user_id : Nat) (topic : Option String)
    (f : String → String → Nat → Except String WritingAssessment) (db : DB) :
    submit_writing user_id (.ok ⟨topic, none⟩) f db =
      (.json 400 [("error", .jstr "Text body is required")], db) := by
  simp [submit_writing]

/-- C10: a request body that is not valid JSON makes both submit endpoints
return HTTP 500 with an error message and leave the database unchanged;
and a present-but-empty `text_body` is rejected with 400 exactly as a
missing one is (the two runs are equal). -/
theorem C10_parse_error_500_empty_body_400 :
    (∀ (u : Nat) (f : String → String → Nat → Except String WritingAssessment)
       (db : DB) (e : String),
        submit_writing u (.error e) f db = (.json 500 [("error", .jstr e)], db)) ∧
    (∀ (u : Nat) (mr : String)
       (g : String → String → Int → Except String SpeakingAssessment)
       (db : DB) (e : String),
        submit_listening u mr (.error e) g db = (.json 500 [("error", .jstr e)], db)) ∧
    (∀ (u : Nat) (topic : Option String)
       (f : String → String → Nat → Except String WritingAssessment) (db : DB),
        submit_writing u (.ok ⟨topic, some ""⟩) f db =
          submit_writing u (.ok ⟨topic, none⟩) f db ∧
        submit_writing u (.ok ⟨topic, some ""⟩) f db =
          (.json 400 [("error", .jstr "Text body is required")], db)) := by
  refine ⟨?_, ?_, ?_⟩ <;> intros <;> simp [submit_writing, submit_listening]

/-- C6: the submission-detail view never modifies the database, and when
no stored submission matches both the requested id and the requesting
user's id (wrong owner or nonexistent), it responds 404. -/
theorem C6_detail_404_and_readonly (u sid : Nat) (db : DB) :
    (submission_detail u sid db).2 = db ∧
    ((∀ s ∈ db.submissions, ¬(s.submission_id = sid ∧ s.user_id = u)) →
      (submission_detail u sid db).1.statusCode = 404) := by
  constructor
  · unfold submission_detail
    split <;> rfl
  · intro h
    unfold submission_detail
    have hnone : db.submissions.find?
        (fun s => s.submission_id = sid && s.user_id = u) = none := by
      rw [List.find?_eq_none]
      intro s hs
      simpa using h s hs
    rw [hnone]
    rfl

/-- Witness for C6: user 1 requests submission 0, which belongs to user 2;
the response is 404 and the database is untouched. -/
theorem C6_detail_404_and_readonly_witness :
    (submission_detail 1 0 sampleDB).2 = sampleDB ∧
    (submission_detail 1 0 sampleDB).1.statusCode = 404 :=
  ⟨(C6_detail_404_and_readonly 1 0 sampleDB).1,
   (C6_detail_404_and_readonly 1 0 sampleDB).2 (by decide)⟩

/-- C5: every valid writing submission stores a WritingSubmission row whose
`word_count` is the number of whitespace-separated tokens of the submitted
`text_body` (on every assessment outcome), and the token count of
"a b  c" (two spaces before c) is 3. -/
theorem C5_word_count_tokens :
    (∀ (u : Nat) (topic : Option String) (tb : String)
       (f : String → String → Nat → Except String WritingAssessment) (db : DB),
        tb ≠ "" →
        (submit_writing u (.ok ⟨topic, some tb⟩) f db).2.writingSubmissions =
          db.writingSubmissions ++
            [{ submission_id := db.nextId, topic := topic.getD "", text_body := tb,
               word_count := (pySplit tb).length }]) ∧
    (pySplit "a b  c").length = 3 := by
  constructor
  · intro u topic tb f db htb
    simp only [submit_writing, Option.getD_some, DB.createSubmission,
      DB.createWritingSubmission, DB.saveSubmission, DB.createAssessmentResult,
      if_neg htb]
    cases hf : f (topic.getD "") tb (pySplit tb).length with
    | error e => simp
    | ok ar => by_cases hs : ar.success <;> simp [hs]
  · decide

/-- Witness for C5: a concrete valid submission of "a b  c" stores
word_count 3. -/
theorem C5_word_count_tokens_witness :
    (submit_writing 1 (.ok ⟨some "t", some "a b  c"⟩)
        raisingWritingAssessor emptyDB).2.writingSubmissions =
      emptyDB.writingSubmissions ++
        [{ submission_id := emptyDB.nextId, topic := (some "t").getD "",
           text_body := "a b  c", word_count := (pySplit "a b  c").length }] :=
  C5_word_count_tokens.1 1 (some "t") "a b  c" raisingWritingAssessor emptyDB (by decide)

/-- C2: a writing submission whose assessment returns success=true yields a
COMPLETED Submission carrying the overall score, exactly one
AssessmentResult row for it (grammar, vocabulary, coherence, fluency
scores, feedback summary and suggestions), and a 200 response with
success, submission_id, score and message. -/
theorem C2_writing_success (u : Nat) (topic : Option String) (tb : String)
    (f : String → String → Nat → Except String WritingAssessment)
    (ar : WritingAssessment) (db : DB)
    (hwf : db.Wf) (htb : tb ≠ "")
    (hf : f (topic.getD "") tb (pySplit tb).length = .ok ar)
    (hs : ar.success = true) :
    submit_writing u (.ok ⟨topic, some tb⟩) f db =
      (.json 200 [("success", .jbool true),
                  ("submission_id", .jstr (toString db.nextId)),
                  ("score", .jint ar.overall_score),
                  ("message", .jstr "Writing submitted and assessed successfully")],
       { submissions := db.submissions ++
           [{ submission_id := db.nextId, user_id := u, submission_type := .WRITING,
              status := .COMPLETED, overall_score := some ar.overall_score }],
         writingSubmissions := db.writingSubmissions ++
           [{ submission_id := db.nextId, topic := topic.getD "", text_body := tb,
              word_count := (pySplit tb).length }],
         listeningSubmissions := db.listeningSubmissions,
         assessmentResults := db.assessmentResults ++
           [{ submission_id := db.nextId, grammar_score := ar.grammar_score,
              vocabulary_score := ar.vocabulary_score,
              coherence_score := ar.coherence_score,
              fluency_score := ar.fluency_score, pronunciation_score := none,
              feedback_summary := ar.feedback_summary,
              suggestions := ar.suggestions }],
         nextId := db.nextId + 1 }) ∧
    (submit_writing u (.ok ⟨topic, some tb⟩) f db).2.assessmentResults.countP
      (fun a => a.submission_id = db.nextId) = 1 := by
  obtain ⟨h1, h2, h3, h4⟩ := hwf
  have hmain : submit_writing u (.ok ⟨topic, some tb⟩) f db =
      (.json 200 [("success", .jbool true),
                  ("submission_id", .jstr (toString db.nextId)),
                  ("score", .jint ar.overall_score),
                  ("message", .jstr "Writing submitted and assessed successfully")],
       { submissions := db.submissions ++
           [{ submission_id := db.nextId, user_id := u, submission_type := .WRITING,
              status := .COMPLETED, overall_score := some ar.overall_score }],
         writingSubmissions := db.writingSubmissions ++
           [{ submission_id := db.nextId, topic := topic.getD "", text_body := tb,
              word_count := (pySplit tb).length }],
         listeningSubmissions := db.listeningSubmissions,
         assessmentResults := db.assessmentResults ++
           [{ submission_id := db.nextId, grammar_score := ar.grammar_score,
              vocabulary_score := ar.vocabulary_score,
              coherence_score := ar.coherence_score,
              fluency_score := ar.fluency_score, pronunciation_score := none,
              feedback_summary := ar.feedback_summary,
              suggestions := ar.suggestions }],
         nextId := db.nextId + 1 }) := by
    simp only [submit_writing, Option.getD_some, DB.createSubmission,
      DB.createWritingSubmission, DB.saveSubmission, DB.createAssessmentResult,
      if_neg htb, hf, hs, if_true, List.map_append, List.map_cons, List.map_nil,
      saveSubmission_map_fresh db.submissions db.nextId _ h1]
  refine ⟨hmain, ?_⟩
  rw [hmain]
  simp [List.countP_append, countP_assessment_fresh db.assessmentResults db.nextId h4,
    List.countP_cons]

/-- Witness for C2: a concrete successful writing submission creates
exactly one AssessmentResult row. -/
theorem C2_writing_success_witness :
    emptyDB.Wf ∧ ("hello world" : String) ≠ "" ∧
    (submit_writing 1 (.ok ⟨some "t", some "hello world"⟩)
        (fun _ _ _ => .ok okWritingResult) emptyDB).2.assessmentResults.countP
      (fun a => a.submission_id = emptyDB.nextId) = 1 :=
  ⟨by decide, by decide,
   (C2_writing_success 1 (some "t") "hello world"
      (fun _ _ _ => .ok okWritingResult) okWritingResult emptyDB
      (by decide) (by decide) rfl rfl).2⟩

/-- C3: an assessment call returning success=false (writing or listening)
marks the Submission FAILED, answers HTTP 500, and the previously created
Submission and detail rows remain persisted. -/
theorem C3_assessment_failure_persisted :
    (∀ (u : Nat) (topic : Option String) (tb : String)
       (f : String → String → Nat → Except String WritingAssessment)
       (ar : WritingAssessment) (db : DB),
        db.Wf → tb ≠ "" →
        f (topic.getD "") tb (pySplit tb).length = .ok ar →
        ar.success = false →
        submit_writing u (.ok ⟨topic, some tb⟩) f db =
          (.json 500 [("success", .jbool false),
                      ("submission_id", .jstr (toString db.nextId)),
                      ("error", .jstr (ar.error.getD "Assessment failed")),
                      ("message", .jstr "Submission saved but assessment failed. Please try again.")],
           { submissions := db.submissions ++
               [{ submission_id := db.nextId, user_id := u,
                  submission_type := .WRITING, status := .FAILED,
                  overall_score := none }],
             writingSubmissions := db.writingSubmissions ++
               [{ submission_id := db.nextId, topic := topic.getD "",
                  text_body := tb, word_count := (pySplit tb).length }],
             listeningSubmissions := db.listeningSubmissions,
             assessmentResults := db.assessmentResults,
             nextId := db.nextId + 1 })) ∧
    (∀ (u : Nat) (mr : String) (topic : Option String) (au : String)
       (durOpt : Option Int)
       (g : String → String → Int → Except String SpeakingAssessment)
       (ar : SpeakingAssessment) (db : DB),
        db.Wf → au ≠ "" →
        g (topic.getD "") (audioFilePath mr au) (durOpt.getD 0) = .ok ar →
        ar.success = false →
        submit_listening u mr (.ok ⟨topic, some au, durOpt⟩) g db =
          (.json 500 [("success", .jbool false),
                      ("submission_id", .jstr (toString db.nextId)),
                      ("error", .jstr (ar.error.getD "Assessment failed")),
                      ("message", .jstr "Submission saved but assessment failed. Please try again.")],
           { submissions := db.submissions ++
               [{ submission_id := db.nextId, user_id := u,
                  submission_type := .LISTENING, status := .FAILED,
                  overall_score := none }],
             writingSubmissions := db.writingSubmissions,
             listeningSubmissions := db.listeningSubmissions ++
               [{ submission_id := db.nextId, topic := topic.getD "",
                  audio_file_url := au, duration_seconds := durOpt.getD 0,
                  transcription := none }],
             assessmentResults := db.assessmentResults,
             nextId := db.nextId + 1 })) := by
  constructor
  · intro u topic tb f ar db hwf htb hf hs
    obtain ⟨h1, h2, h3, h4⟩ := hwf
    simp only [submit_writing, Option.getD_some, DB.createSubmission,
      DB.createWritingSubmission, DB.saveSubmission, DB.createAssessmentResult,
      if_neg htb, hf, hs, Bool.false_eq_true, if_false, List.map_append,
      List.map_cons, List.map_nil,
      saveSubmission_map_fresh db.submissions db.nextId _ h1]
    simp
  · intro u mr topic au durOpt g ar db hwf hau hg hs
    obtain ⟨h1, h2, h3, h4⟩ := hwf
    simp only [submit_listening, Option.getD_some, DB.createSubmission,
      DB.createListeningSubmission, DB.saveSubmission, DB.createAssessmentResult,
      if_neg hau, hg, hs, Bool.false_eq_true, if_false, List.map_append,
      List.map_cons, List.map_nil,
      saveSubmission_map_fresh db.submissions db.nextId _ h1]
    simp

/-- Witness for C3: a concrete failed writing assessment leaves the
Submission FAILED with the detail row persisted and answers 500. -/
theorem C3_assessment_failure_persisted_witness :
    emptyDB.Wf ∧
    submit_writing 1 (.ok ⟨some "t", some "my essay"⟩)
        (fun _ _ _ => .ok failedWritingResult) emptyDB =
      (.json 500 [("success", .jbool false),
                  ("submission_id", .jstr (toString emptyDB.nextId)),
                  ("error", .jstr (failedWritingResult.error.getD "Assessment failed")),
                  ("message", .jstr "Submission saved but assessment failed. Please try again.")],
       { submissions := emptyDB.submissions ++
           [{ submission_id := emptyDB.nextId, user_id := 1,
              submission_type := .WRITING, status := .FAILED,
              overall_score := none }],
         writingSubmissions := emptyDB.writingSubmissions ++
           [{ submission_id := emptyDB.nextId, topic := (some "t").getD "",
              text_body := "my essay", word_count := (pySplit "my essay").length }],
         listeningSubmissions := emptyDB.listeningSubmissions,
         assessmentResults := emptyDB.assessmentResults,
         nextId := emptyDB.nextId + 1 }) :=
  ⟨by decide,
   C3_assessment_failure_persisted.1 1 (some "t") "my essay"
     (fun _ _ _ => .ok failedWritingResult) failedWritingResult emptyDB
     (by decide) (by decide) rfl rfl⟩

/-- C9: a listening submission whose assessment returns success=true has
its ListeningSubmission row (created with a null transcription) updated to
the assessor's transcription, and the 200 response carries success,
submission_id, score, transcription and message. -/
theorem C9_listening_transcription (u : Nat) (mr : String) (topic : Option String)
    (au : String) (durOpt : Option Int)
    (g : String → String → Int → Except String SpeakingAssessment)
    (ar : SpeakingAssessment) (db : DB)
    (hwf : db.Wf) (hau : au ≠ "")
    (hg : g (topic.getD "") (audioFilePath mr au) (durOpt.getD 0) = .ok ar)
    (hs : ar.success = true) :
    submit_listening u mr (.ok ⟨topic, some au, durOpt⟩) g db =
      (.json 200 [("success", .jbool true),
                  ("submission_id", .jstr (toString db.nextId)),
                  ("score", .jint ar.overall_score),
                  ("transcription", .jstr (ar.transcription.getD "")),
                  ("message", .jstr "Audio submitted and assessed successfully")],
       { submissions := db.submissions ++
           [{ submission_id := db.nextId, user_id := u,
              submission_type := .LISTENING, status := .COMPLETED,
              overall_score := some ar.overall_score }],
         writingSubmissions := db.writingSubmissions,
         listeningSubmissions := db.listeningSubmissions ++
           [{ submission_id := db.nextId, topic := topic.getD "",
              audio_file_url := au, duration_seconds := durOpt.getD 0,
              transcription := some (ar.transcription.getD "") }],
         assessmentResults := db.assessmentResults ++
           [{ submission_id := db.nextId, grammar_score := ar.grammar_score,
              vocabulary_score := ar.vocabulary_score,
              coherence_score := ar.coherence_score,
              fluency_score := ar.fluency_score,
              pronunciation_score := some ar.pronunciation_score,
              feedback_summary := ar.feedback_summary,
              suggestions := ar.suggestions }],
         nextId := db.nextId + 1 }) := by
  obtain ⟨h1, h2, h3, h4⟩ := hwf
  simp only [submit_listening, Option.getD_some, DB.createSubmission,
    DB.createListeningSubmission, DB.saveListeningSubmission, DB.saveSubmission,
    DB.createAssessmentResult, if_neg hau, hg, hs, if_true, List.map_append,
    List.map_cons, List.map_nil,
    saveSubmission_map_fresh db.submissions db.nextId _ h1,
    saveListening_map_fresh db.listeningSubmissions db.nextId _ h3]

/-- Witness for C9: a concrete successful listening submission stores and
returns the transcription. -/
theorem C9_listening_transcription_witness :
    emptyDB.Wf ∧ ("clip.wav" : String) ≠ "" ∧
    (submit_listening 1 "/media" (.ok ⟨some "t", some "clip.wav", some 30⟩)
        (fun _ _ _ => .ok okSpeakingResult) emptyDB).2.listeningSubmissions =
      emptyDB.listeningSubmissions ++
        [{ submission_id := emptyDB.nextId, topic := (some "t").getD "",
           audio_file_url := "clip.wav", duration_seconds := (some (30 : Int)).getD 0,
           transcription := some (okSpeakingResult.transcription.getD "") }] :=
  ⟨by decide, by decide,
   by rw [C9_listening_transcription 1 "/media" (some "t") "clip.wav" (some 30)
       (fun _ _ _ => .ok okSpeakingResult) okSpeakingResult emptyDB
       (by decide) (by decide) rfl rfl]⟩

/-- C1 counterexample: when the dispatch call raises an exception, the
request cycle ends with a 500 response but the created Submission still
has status IN_PROGRESS — the except clause performs no status update, so
IN_PROGRESS persists past the end of the request cycle. -/
theorem C1_counterexample :
    (submit_writing 7 (.ok ⟨some "t", some "hi there"⟩)
        raisingWritingAssessor emptyDB).1.statusCode = 500 ∧
    (submit_writing 7 (.ok ⟨some "t", some "hi there"⟩)
        raisingWritingAssessor emptyDB).2.submissions.map Submission.status =
      [.IN_PROGRESS] := by decide

/-- C1 (amended): when the assessment call returns (success or failure),
the created Submission ends the request cycle in a terminal state
(COMPLETED or FAILED); when the assessment call raises an exception, the
response is 500 but the created Submission persists with status
IN_PROGRESS (it is not set to FAILED).  Both endpoints. -/
theorem C1_terminal_after_dispatch :
    (∀ (u : Nat) (topic : Option String) (tb : String)
       (f : String → String → Nat → Except String WritingAssessment)
       (ar : WritingAssessment) (db : DB),
        db.Wf → tb ≠ "" →
        f (topic.getD "") tb (pySplit tb).length = .ok ar →
        ∃ x, (submit_writing u (.ok ⟨topic, some tb⟩) f db).2.submissions =
               db.submissions ++ [x] ∧ x.submission_id = db.nextId ∧
               (x.status = .COMPLETED ∨ x.status = .FAILED)) ∧
    (∀ (u : Nat) (topic : Option String) (tb : String)
       (f : String → String → Nat → Except String WritingAssessment)
       (e : String) (db : DB),
        tb ≠ "" →
        f (topic.getD "") tb (pySplit tb).length = .error e →
        (submit_writing u (.ok ⟨topic, some tb⟩) f db).1.statusCode = 500 ∧
        (submit_writing u (.ok ⟨topic, some tb⟩) f db).2.submissions =
          db.submissions ++
            [{ submission_id := db.nextId, user_id := u,
               submission_type := .WRITING, status := .IN_PROGRESS,
               overall_score := none }]) ∧
    (∀ (u : Nat) (mr : String) (topic : Option String) (au : String)
       (durOpt : Option Int)
       (g : String → String → Int → Except String SpeakingAssessment)
       (ar : SpeakingAssessment) (db : DB),
        db.Wf → au ≠ "" →
        g (topic.getD "") (audioFilePath mr au) (durOpt.getD 0) = .ok ar →
        ∃ x, (submit_listening u mr (.ok ⟨topic, some au, durOpt⟩) g db).2.submissions =
               db.submissions ++ [x] ∧ x.submission_id = db.nextId ∧
               (x.status = .COMPLETED ∨ x.status = .FAILED)) ∧
    (∀ (u : Nat) (mr : String) (topic : Option String) (au : String)
       (durOpt : Option Int)
       (g : String → String → Int → Except String SpeakingAssessment)
       (e : String) (db : DB),
        au ≠ "" →
        g (topic.getD "") (audioFilePath mr au) (durOpt.getD 0) = .error e →
        (submit_listening u mr (.ok ⟨topic, some au, durOpt⟩) g db).1.statusCode = 500 ∧
        (submit_listening u mr (.ok ⟨topic, some au, durOpt⟩) g db).2.submissions =
          db.submissions ++
            [{ submission_id := db.nextId, user_id := u,
               submission_type := .LISTENING, status := .IN_PROGRESS,
               overall_score := none }]) := by
  refine ⟨?_, ?_, ?_, ?_⟩
  · intro u topic tb f ar db hwf htb hf
    obtain ⟨h1, h2, h3, h4⟩ := hwf
    cases hsucc : ar.success
    · refine ⟨{ submission_id := db.nextId, user_id := u, submission_type := .WRITING,
                status := .FAILED, overall_score := none }, ?_, rfl, .inr rfl⟩
      simp only [submit_writing, Option.getD_some, DB.createSubmission,
        DB.createWritingSubmission, DB.saveSubmission, DB.createAssessmentResult,
        if_neg htb, hf, hsucc, Bool.false_eq_true, if_false, List.map_append,
        List.map_cons, List.map_nil,
        saveSubmission_map_fresh db.submissions db.nextId _ h1]
      simp
    · refine ⟨{ submission_id := db.nextId, user_id := u, submission_type := .WRITING,
                status := .COMPLETED, overall_score := some ar.overall_score },
              ?_, rfl, .inl rfl⟩
      simp only [submit_writing, Option.getD_some, DB.createSubmission,
        DB.createWritingSubmission, DB.saveSubmission, DB.createAssessmentResult,
        if_neg htb, hf, hsucc, if_true, List.map_append, List.map_cons, List.map_nil,
        saveSubmission_map_fresh db.submissions db.nextId _ h1]
  · intro u topic tb f e db htb hf
    refine ⟨?_, ?_⟩ <;>
      simp [submit_writing, DB.createSubmission, DB.createWritingSubmission,
        htb, hf, HttpResponse.statusCode]
  · intro u mr topic au durOpt g ar db hwf hau hg
    obtain ⟨h1, h2, h3, h4⟩ := hwf
    cases hsucc : ar.success
    · refine ⟨{ submission_id := db.nextId, user_id := u, submission_type := .LISTENING,
                status := .FAILED, overall_score := none }, ?_, rfl, .inr rfl⟩
      simp only [submit_listening, Option.getD_some, DB.createSubmission,
        DB.createListeningSubmission, DB.saveSubmission, DB.createAssessmentResult,
        if_neg hau, hg, hsucc, Bool.false_eq_true, if_false, List.map_append,
        List.map_cons, List.map_nil,
        saveSubmission_map_fresh db.submissions db.nextId _ h1]
      simp
    · refine ⟨{ submission_id := db.nextId, user_id := u, submission_type := .LISTENING,
                status := .COMPLETED, overall_score := some ar.overall_score },
              ?_, rfl, .inl rfl⟩
      simp only [submit_listening, Option.getD_some, DB.createSubmission,
        DB.createListeningSubmission, DB.saveListeningSubmission, DB.saveSubmission,
        DB.createAssessmentResult, if_neg hau, hg, hsucc, if_true, List.map_append,
        List.map_cons, List.map_nil,
        saveSubmission_map_fresh db.submissions db.nextId _ h1,
        saveListening_map_fresh db.listeningSubmissions db.nextId _ h3]
  · intro u mr topic au durOpt g e db hau hg
    refine ⟨?_, ?_⟩ <;>
      simp [submit_listening, DB.createSubmission, DB.createListeningSubmission,
        hau, hg, HttpResponse.statusCode]

/-- Witness for the amended C1: a concrete successful dispatch ends
terminal, and a concrete raising dispatch ends 500 with IN_PROGRESS
persisted. -/
theorem C1_terminal_after_dispatch_witness :
    (∃ x, (submit_writing 1 (.ok ⟨some "t", some "one two"⟩)
        (fun _ _ _ => .ok okWritingResult) emptyDB).2.submissions =
          emptyDB.submissions ++ [x] ∧ x.submission_id = emptyDB.nextId ∧
          (x.status = .COMPLETED ∨ x.status = .FAILED)) ∧
    ((submit_writing 2 (.ok ⟨some "t", some "one two"⟩)
        raisingWritingAssessor emptyDB).1.statusCode = 500 ∧
     (submit_writing 2 (.ok ⟨some "t", some "one two"⟩)
        raisingWritingAssessor emptyDB).2.submissions =
       emptyDB.submissions ++
         [{ submission_id := emptyDB.nextId, user_id := 2,
            submission_type := .WRITING, status := .IN_PROGRESS,
            overall_score := none }]) :=
  ⟨C1_terminal_after_dispatch.1 1 (some "t") "one two"
     (fun _ _ _ => .ok okWritingResult) okWritingResult emptyDB
     (by decide) (by decide) rfl,
   C1_terminal_after_dispatch.2.1 2 (some "t") "one two"
     raisingWritingAssessor "connection refused" emptyDB (by decide) rfl⟩

/-- C7 counterexample: a listening request whose body lacks
duration_seconds is not rejected: with audio_url present it is accepted
(HTTP 200) and a ListeningSubmission row is created with
duration_seconds defaulted to 0. -/
theorem C7_counterexample :
    (submit_listening 3 "/media" (.ok ⟨some "t", some "clip.wav", none⟩)
        (fun _ _ _ => .ok okSpeakingResult) emptyDB).1.statusCode = 200 ∧
    (submit_listening 3 "/media" (.ok ⟨some "t", some "clip.wav", none⟩)
        (fun _ _ _ => .ok okSpeakingResult) emptyDB).2.listeningSubmissions =
      [{ submission_id := 0, topic := "t", audio_file_url := "clip.wav",
         duration_seconds := 0, transcription := some "hello world" }] := by decide

/-- C7 (amended): only a missing or empty audio_url is rejected: that case
returns 400 and creates no Submission or ListeningSubmission record; a
missing duration_seconds is not rejected — the request proceeds (the
response is never 400) and the created ListeningSubmission row has
duration_seconds defaulted to 0. -/
theorem C7_audio_url_required :
    (∀ (u : Nat) (mr : String) (topic : Option String) (durOpt : Option Int)
       (g : String → String → Int → Except String SpeakingAssessment) (db : DB),
        submit_listening u mr (.ok ⟨topic, none, durOpt⟩) g db =
          (.json 400 [("error", .jstr "Audio URL is required")], db) ∧
        submit_listening u mr (.ok ⟨topic, some "", durOpt⟩) g db =
          (.json 400 [("error", .jstr "Audio URL is required")], db)) ∧
    (∀ (u : Nat) (mr : String) (topic : Option String) (au : String)
       (g : String → String → Int → Except String SpeakingAssessment) (db : DB),
        db.Wf → au ≠ "" →
        (submit_listening u mr (.ok ⟨topic, some au, none⟩) g db).1.statusCode ≠ 400 ∧
        ∃ x, (submit_listening u mr (.ok ⟨topic, some au, none⟩) g db).2.listeningSubmissions =
               db.listeningSubmissions ++ [x] ∧ x.submission_id = db.nextId ∧
               x.duration_seconds = 0) := by
  constructor
  · intro u mr topic durOpt g db
    constructor <;> simp [submit_listening]
  · intro u mr topic au g db hwf hau
    obtain ⟨h1, h2, h3, h4⟩ := hwf
    cases hg : g (topic.getD "") (audioFilePath mr au) ((none : Option Int).getD 0) with
    | error e =>
      constructor
      · simp only [submit_listening, Option.getD_some, DB.createSubmission,
          DB.createListeningSubmission, if_neg hau, hg]
        simp [HttpResponse.statusCode]
      · refine ⟨{ submission_id := db.nextId, topic := topic.getD "",
                  audio_file_url := au, duration_seconds := 0,
                  transcription := none }, ?_, rfl, rfl⟩
        simp only [submit_listening, Option.getD_some, DB.createSubmission,
          DB.createListeningSubmission, if_neg hau, hg]
        simp
    | ok ar =>
      cases hsucc : ar.success
      · constructor
        · simp only [submit_listening, Option.getD_some, DB.createSubmission,
            DB.createListeningSubmission, DB.saveSubmission, if_neg hau, hg, hsucc,
            Bool.false_eq_true, if_false]
          simp [HttpResponse.statusCode]
        · refine ⟨{ submission_id := db.nextId, topic := topic.getD "",
                    audio_file_url := au, duration_seconds := 0,
                    transcription := none }, ?_, rfl, rfl⟩
          simp only [submit_listening, Option.getD_some, DB.createSubmission,
            DB.createListeningSubmission, DB.saveSubmission, if_neg hau, hg, hsucc,
            Bool.false_eq_true, if_false]
          simp
      · constructor
        · simp only [submit_listening, Option.getD_some, DB.createSubmission,
            DB.createListeningSubmission, DB.saveListeningSubmission,
            DB.saveSubmission, DB.createAssessmentResult, if_neg hau, hg, hsucc,
            if_true]
          simp [HttpResponse.statusCode]
        · refine ⟨{ submission_id := db.nextId, topic := topic.getD "",
                    audio_file_url := au, duration_seconds := 0,
                    transcription := some (ar.transcription.getD "") }, ?_, rfl, rfl⟩
          simp only [submit_listening, Option.getD_some, DB.createSubmission,
            DB.createListeningSubmission, DB.saveListeningSubmission,
            DB.saveSubmission, DB.createAssessmentResult, if_neg hau, hg, hsucc,
            if_true, List.map_append, List.map_cons, List.map_nil,
            saveListening_map_fresh db.listeningSubmissions db.nextId _ h3]
          simp

/-- Witness for the amended C7: a concrete missing-audio_url request is
rejected with 400 and no row; a concrete missing-duration request
proceeds with duration 0. -/
theorem C7_audio_url_required_witness :
    (submit_listening 1 "/media" (.ok ⟨some "t", none, some 30⟩)
        raisingSpeakingAssessor emptyDB =
      (.json 400 [("error", .jstr "Audio URL is required")], emptyDB)) ∧
    ((submit_listening 1 "/media" (.ok ⟨some "t", some "clip.wav", none⟩)
        raisingSpeakingAssessor emptyDB).1.statusCode ≠ 400 ∧
     ∃ x, (submit_listening 1 "/media" (.ok ⟨some "t", some "clip.wav", none⟩)
            raisingSpeakingAssessor emptyDB).2.listeningSubmissions =
             emptyDB.listeningSubmissions ++ [x] ∧ x.submission_id = emptyDB.nextId ∧
             x.duration_seconds = 0) :=
  ⟨(C7_audio_url_required.1 1 "/media" (some "t") (some 30)
      raisingSpeakingAssessor emptyDB).1,
   C7_audio_url_required.2 1 "/media" (some "t") "clip.wav"
     raisingSpeakingAssessor emptyDB (by decide) (by decide)⟩

/-- C8 counterexample: a submission is never in the PENDING state: the one
submissions-table write this failing run performs is the creation itself,
and the record it leaves behind has status IN_PROGRESS, not PENDING, so
the submission did not start in the PENDING state. -/
theorem C8_counterexample :
    (submit_writing 5 (.ok ⟨some "t", some "essay text"⟩)
        raisingWritingAssessor emptyDB).2.submissions.map Submission.status =
      [.IN_PROGRESS] ∧
    AnalysisStatus.IN_PROGRESS ≠ AnalysisStatus.PENDING := by decide

/-- C8 (amended): both handlers create the Submission directly with status
IN_PROGRESS — the PENDING state is never assigned — and the created record
then moves to COMPLETED or FAILED only when the assessment call returns;
when the call raises, the record keeps its creation status IN_PROGRESS. -/
theorem C8_created_in_progress :
    (∀ (u : Nat) (topic : Option String) (tb : String)
       (f : String → String → Nat → Except String WritingAssessment) (db : DB),
        db.Wf → tb ≠ "" →
        ∃ x, (submit_writing u (.ok ⟨topic, some tb⟩) f db).2.submissions =
               db.submissions ++ [x] ∧ x.submission_id = db.nextId ∧
               x.status ≠ .PENDING ∧
               (∀ e, f (topic.getD "") tb (pySplit tb).length = .error e →
                 x.status = .IN_PROGRESS)) ∧
    (∀ (u : Nat) (mr : String) (topic : Option String) (au : String)
       (durOpt : Option Int)
       (g : String → String → Int → Except String SpeakingAssessment) (db : DB),
        db.Wf → au ≠ "" →
        ∃ x, (submit_listening u mr (.ok ⟨topic, some au, durOpt⟩) g db).2.submissions =
               db.submissions ++ [x] ∧ x.submission_id = db.nextId ∧
               x.status ≠ .PENDING ∧
               (∀ e, g (topic.getD "") (audioFilePath mr au) (durOpt.getD 0) = .error e →
                 x.status = .IN_PROGRESS)) := by
  constructor
  · intro u topic tb f db hwf htb
    obtain ⟨h1, h2, h3, h4⟩ := hwf
    cases hf : f (topic.getD "") tb (pySplit tb).length with
    | error e =>
      refine ⟨{ submission_id := db.nextId, user_id := u, submission_type := .WRITING,
                status := .IN_PROGRESS, overall_score := none },
              ?_, rfl, by simp, fun e2 he2 => rfl⟩
      simp only [submit_writing, Option.getD_some, DB.createSubmission,
        DB.createWritingSubmission, if_neg htb, hf]
    | ok ar =>
      cases hsucc : ar.success
      · refine ⟨{ submission_id := db.nextId, user_id := u, submission_type := .WRITING,
                  status := .FAILED, overall_score := none },
                ?_, rfl, by simp, fun e2 he2 => Except.noConfusion he2⟩
        simp only [submit_writing, Option.getD_some, DB.createSubmission,
          DB.createWritingSubmission, DB.saveSubmission, if_neg htb, hf, hsucc,
          Bool.false_eq_true, if_false, List.map_append, List.map_cons, List.map_nil,
          saveSubmission_map_fresh db.submissions db.nextId _ h1]
        simp
      · refine ⟨{ submission_id := db.nextId, user_id := u, submission_type := .WRITING,
                  status := .COMPLETED, overall_score := some ar.overall_score },
                ?_, rfl, by simp, fun e2 he2 => Except.noConfusion he2⟩
        simp only [submit_writing, Option.getD_some, DB.createSubmission,
          DB.createWritingSubmission, DB.saveSubmission, DB.createAssessmentResult,
          if_neg htb, hf, hsucc, if_true, List.map_append, List.map_cons,
          List.map_nil, saveSubmission_map_fresh db.submissions db.nextId _ h1]
  · intro u mr topic au durOpt g db hwf hau
    obtain ⟨h1, h2, h3, h4⟩ := hwf
    cases hg : g (topic.getD "") (audioFilePath mr au) (durOpt.getD 0) with
    | error e =>
      refine ⟨{ submission_id := db.nextId, user_id := u, submission_type := .LISTENING,
                status := .IN_PROGRESS, overall_score := none },
              ?_, rfl, by simp, fun e2 he2 => rfl⟩
      simp only [submit_listening, Option.getD_some, DB.createSubmission,
        DB.createListeningSubmission, if_neg hau, hg]
    | ok ar =>
      cases hsucc : ar.success
      · refine ⟨{ submission_id := db.nextId, user_id := u, submission_type := .LISTENING,
                  status := .FAILED, overall_score := none },
                ?_, rfl, by simp, fun e2 he2 => Except.noConfusion he2⟩
        simp only [submit_listening, Option.getD_some, DB.createSubmission,
          DB.createListeningSubmission, DB.saveSubmission, if_neg hau, hg, hsucc,
          Bool.false_eq_true, if_false, List.map_append, List.map_cons, List.map_nil,
          saveSubmission_map_fresh db.submissions db.nextId _ h1]
        simp
      · refine ⟨{ submission_id := db.nextId, user_id := u, submission_type := .LISTENING,
                  status := .COMPLETED, overall_score := some ar.overall_score },
                ?_, rfl, by simp, fun e2 he2 => Except.noConfusion he2⟩
        simp only [submit_listening, Option.getD_some, DB.createSubmission,
          DB.createListeningSubmission, DB.saveListeningSubmission, DB.saveSubmission,
          DB.createAssessmentResult, if_neg hau, hg, hsucc, if_true, List.map_append,
          List.map_cons, List.map_nil,
          saveSubmission_map_fresh db.submissions db.nextId _ h1,
          saveListening_map_fresh db.listeningSubmissions db.nextId _ h3]

/-- Witness for the amended C8: a concrete run with a raising assessor
exhibits the record created in (and kept at) status IN_PROGRESS. -/
theorem C8_created_in_progress_witness :
    ∃ x, (submit_writing 4 (.ok ⟨some "t", some "some words"⟩)
        raisingWritingAssessor emptyDB).2.submissions =
          emptyDB.submissions ++ [x] ∧ x.submission_id = emptyDB.nextId ∧
          x.status ≠ .PENDING ∧
          (∀ e, raisingWritingAssessor ((some "t").getD "") "some words"
              (pySplit "some words").length = .error e →
            x.status = .IN_PROGRESS) :=
  C8_created_in_progress.1 4 (some "t") "some words" raisingWritingAssessor emptyDB
    (by decide) (by decide)

end Team11
